import Mathlib

/-!
# Verification of the `ConfigureAdapter` configuration controller

A shallow embedding of
`src/packages/react/modules/components/configure-adapter/configure-adapter.js`:
the adapter lifecycle state machine (UNCONFIGURED / CONFIGURING / CONFIGURED),
the deep-merge of adapter argument sets (the `deepmerge` package as used by
`mergeAdapterArgs`), the pending-argument accumulator, and the lifecycle
hooks (`componentDidMount`, `componentDidUpdate`,
`componentWillReceiveProps`) together with the promise-resolution
continuations of the adapter's `configure`/`reconfigure` calls.

Adapter argument sets are modelled as finitely-branching trees of string-keyed
objects with opaque scalar leaves; calls into the adapter are modelled as an
effect log.
-/

namespace Flopflip

mutual
/-- A JS value inside an adapter-argument object: either an opaque scalar
leaf or a nested plain object (an ordered association list of keyed values,
mirroring JS object key order). `deepmerge` recurses into objects and lets
the source value win elsewhere. -/
inductive ArgVal where
  | leaf : Nat → ArgVal
  | obj : ArgObj → ArgVal

inductive ArgObj where
  | nil : ArgObj
  | cons : String → ArgVal → ArgObj → ArgObj
end

deriving instance DecidableEq for ArgVal

deriving instance DecidableEq for ArgObj

/-- `AdapterArgs` is a plain JS object at top level. -/
abbrev AdapterArgs := ArgObj

/-- Look up the value stored under key `k` (first binding wins, as the
model of a JS object read). -/
def lookupObj (k : String) : ArgObj → Option ArgVal
  | .nil => none
  | .cons k' v rest => if k = k' then some v else lookupObj k rest

/-- Concatenation of the entry lists of two objects. -/
def ArgObj.append : ArgObj → ArgObj → ArgObj
  | .nil, y => y
  | .cons k v rest, y => .cons k v (ArgObj.append rest y)

/-- The entries of `b` whose key is absent from `a`: the keys `deepmerge`'s
`mergeObject` adds to the destination after copying the target's keys. -/
def keysNotIn : ArgObj → ArgObj → ArgObj
  | .nil, _ => .nil
  | .cons k v rest, a =>
      match lookupObj k a with
      | none => .cons k v (keysNotIn rest a)
      | some _ => keysNotIn rest a

mutual
/-- `deepmerge(target, source)`: recursive merge when both sides are plain
objects, otherwise the source value wins (scalars overwrite; an object
overwrites a scalar; a scalar overwrites an object). -/
def deepMergeVal : ArgVal → ArgVal → ArgVal
  | .obj a, .obj b => .obj (ArgObj.append (mergeInto a b) (keysNotIn b a))
  | _, v => v

/-- The target's entries, each deep-merged with the source's entry of the
same key when one exists (`mergeObject`'s per-key update of the copied
target keys). -/
def mergeInto : ArgObj → ArgObj → ArgObj
  | .nil, _ => .nil
  | .cons k v rest, b =>
      .cons k
        (match lookupObj k b with
          | some vb => deepMergeVal v vb
          | none => v)
        (mergeInto rest b)
end

/-- `deepmerge` on two plain objects, as `merge(previousAdapterArgs,
nextAdapterArgs)` invokes it. -/
def deepMergeObj (a b : ArgObj) : ArgObj :=
  ArgObj.append (mergeInto a b) (keysNotIn b a)

/-- The `AdapterStates` enum: `UNCONFIGURED`, `CONFIGURING`, `CONFIGURED`. -/
inductive AdapterState where
  | unconfigured : AdapterState
  | configuring : AdapterState
  | configured : AdapterState
deriving DecidableEq, Repr

/-- `AdapterReconfigurationOptions`: `{ shouldOverwrite?: boolean }`. -/
structure AdapterReconfigurationOptions where
  shouldOverwrite : Bool := false
deriving DecidableEq, Repr

/-- `AdapterReconfiguration`: `{ adapterArgs, options }`. -/
structure AdapterReconfiguration where
  adapterArgs : AdapterArgs
  options : AdapterReconfigurationOptions

/-- `mergeAdapterArgs(previousAdapterArgs, { adapterArgs: nextAdapterArgs,
options })`: the next args verbatim when `options.shouldOverwrite`,
otherwise `merge(previousAdapterArgs, nextAdapterArgs)` (deepmerge). -/
def mergeAdapterArgs (previousAdapterArgs : AdapterArgs)
    (next : AdapterReconfiguration) : AdapterArgs :=
  if next.options.shouldOverwrite then next.adapterArgs
  else deepMergeObj previousAdapterArgs next.adapterArgs

/-- Default flags: a JS object of flag names to values; modelled as an
association list, non-empty iff `Object.keys` is non-empty. -/
abbrev Flags := List (String × Bool)

/-- The instance fields of the `ConfigureAdapter` component that the state
machine reads and writes: the `adapterState` and `pendingAdapterArgs`
instance properties, the `appliedAdapterArgs` React state, and the
relevant props (`adapterArgs`, `shouldDeferAdapterConfiguration`,
`defaultFlags`). -/
structure Controller where
  adapterState : AdapterState
  appliedAdapterArgs : AdapterArgs
  pendingAdapterArgs : Option AdapterArgs
  propsAdapterArgs : AdapterArgs
  shouldDeferAdapterConfiguration : Bool
  defaultFlags : Flags

/-- An outbound call into the adapter or the flag sink: the observable
effects of the controller. -/
inductive Effect where
  | configure : AdapterArgs → Effect
  | reconfigure : AdapterArgs → Effect
  | onFlagsStateChange : Flags → Effect

/-- Which adapter promise is outstanding, distinguishing the two
`.then` continuations (the configure one drains pending args, the
reconfigure one does not). -/
inductive CallKind where
  | configureCall : CallKind
  | reconfigureCall : CallKind
deriving DecidableEq, Repr

/-- The whole system: controller fields, the outstanding adapter promise
(if any), and the log of effects emitted so far. -/
structure Sys where
  ctrl : Controller
  inFlight : Option CallKind
  log : List Effect

/-- `setAdapterState`: assign the `adapterState` instance field. -/
def setAdapterState (c : Controller) (nextAdapterState : AdapterState) :
    Controller :=
  { c with adapterState := nextAdapterState }

/-- `applyAdapterArgs(nextAdapterArgs)`: `setState` the applied args, then
(in the `setState` callback) clear `pendingAdapterArgs`. -/
def applyAdapterArgs (c : Controller) (nextAdapterArgs : AdapterArgs) :
    Controller :=
  { c with appliedAdapterArgs := nextAdapterArgs, pendingAdapterArgs := none }

/-- `setPendingAdapterArgs(nextReconfiguration)`: merge the next
reconfiguration into `pendingAdapterArgs`, seeding from
`appliedAdapterArgs` when pending is `null`. -/
def setPendingAdapterArgs (c : Controller)
    (nextReconfiguration : AdapterReconfiguration) : Controller :=
  { c with
    pendingAdapterArgs :=
      some (mergeAdapterArgs
        (c.pendingAdapterArgs.getD c.appliedAdapterArgs)
        nextReconfiguration) }

/-- `getAdapterArgsForConfiguration`: `pendingAdapterArgs ||
appliedAdapterArgs`. -/
def getAdapterArgsForConfiguration (c : Controller) : AdapterArgs :=
  c.pendingAdapterArgs.getD c.appliedAdapterArgs

/-- `reconfigureOrQueue(nextAdapterArgs, options)`: apply immediately when
`adapterState === CONFIGURED && adapterState !== CONFIGURING`, otherwise
queue into the pending args. -/
def reconfigureOrQueue (c : Controller) (nextAdapterArgs : AdapterArgs)
    (options : AdapterReconfigurationOptions) : Controller :=
  if c.adapterState = AdapterState.configured ∧
      c.adapterState ≠ AdapterState.configuring then
    applyAdapterArgs c
      (mergeAdapterArgs c.appliedAdapterArgs
        ⟨nextAdapterArgs, options⟩)
  else setPendingAdapterArgs c ⟨nextAdapterArgs, options⟩

/-- `handleDefaultFlags(defaultFlags)`: push the default flags to
`adapterArgs.onFlagsStateChange` iff `Object.keys(defaultFlags).length >
0`; as an effect list. -/
def handleDefaultFlags (defaultFlags : Flags) : List Effect :=
  if 0 < defaultFlags.length then [Effect.onFlagsStateChange defaultFlags]
  else []

/-- `componentDidMount`: emit the default flags, and unless configuration
is deferred, enter CONFIGURING and issue `adapter.configure` with the
pending-or-applied args, leaving its `.then` continuation outstanding. -/
def componentDidMount (s : Sys) : Sys :=
  let fx := handleDefaultFlags s.ctrl.defaultFlags
  if s.ctrl.shouldDeferAdapterConfiguration = false then
    let c := setAdapterState s.ctrl AdapterState.configuring
    { ctrl := c
      inFlight := some CallKind.configureCall
      log := s.log ++ fx ++ [Effect.configure (getAdapterArgsForConfiguration c)] }
  else { s with log := s.log ++ fx }

/-- The `.then` continuation of `adapter.configure`: enter CONFIGURED and,
when pending args accumulated mid-flight, commit them via
`applyAdapterArgs`. -/
def resolveConfigure (c : Controller) : Controller :=
  let c := setAdapterState c AdapterState.configured
  match c.pendingAdapterArgs with
  | some pending => applyAdapterArgs c pending
  | none => c

/-- The `.then` continuation of `adapter.reconfigure`: enter CONFIGURED;
pending args are not drained on this path. -/
def resolveReconfigure (c : Controller) : Controller :=
  setAdapterState c AdapterState.configured

/-- `componentDidUpdate`: when not deferred and neither CONFIGURED nor
CONFIGURING, behave as startup (`configure`); else when CONFIGURED (and
not CONFIGURING), enter CONFIGURING and issue `adapter.reconfigure`;
else no-op. -/
def componentDidUpdate (s : Sys) : Sys :=
  if s.ctrl.shouldDeferAdapterConfiguration = false ∧
      s.ctrl.adapterState ≠ AdapterState.configured ∧
      s.ctrl.adapterState ≠ AdapterState.configuring then
    let c := setAdapterState s.ctrl AdapterState.configuring
    { ctrl := c
      inFlight := some CallKind.configureCall
      log := s.log ++ [Effect.configure (getAdapterArgsForConfiguration c)] }
  else if s.ctrl.adapterState = AdapterState.configured ∧
      s.ctrl.adapterState ≠ AdapterState.configuring then
    let c := setAdapterState s.ctrl AdapterState.configuring
    { ctrl := c
      inFlight := some CallKind.reconfigureCall
      log := s.log ++ [Effect.reconfigure (getAdapterArgsForConfiguration c)] }
  else s

/-- `componentWillReceiveProps(nextProps)`: when the incoming
`adapterArgs` differ from the current props (`!==`, modelled as
structural difference), route through `reconfigureOrQueue` with
`shouldOverwrite: adapterState === CONFIGURED`; then React installs the
next props. -/
def componentWillReceiveProps (c : Controller) (nextAdapterArgs : AdapterArgs) :
    Controller :=
  let c' :=
    if nextAdapterArgs ≠ c.propsAdapterArgs then
      reconfigureOrQueue c nextAdapterArgs
        ⟨decide (c.adapterState = AdapterState.configured)⟩
    else c
  { c' with propsAdapterArgs := nextAdapterArgs }

/-- The operations available after mount: a props change (which React
follows with an update tick), an explicit reconfiguration request through
the context-published `reconfigureOrQueue`, an update tick
(`componentDidUpdate`), and the resolution of the outstanding adapter
promise. -/
inductive Event where
  | receiveProps : AdapterArgs → Event
  | request : AdapterArgs → AdapterReconfigurationOptions → Event
  | updateTick : Event
  | resolve : Event

/-- Resolution of the outstanding adapter promise, dispatching to the
matching `.then` continuation; a no-op when nothing is outstanding. -/
def resolveStep (s : Sys) : Sys :=
  match s.inFlight with
  | some CallKind.configureCall =>
      { s with ctrl := resolveConfigure s.ctrl, inFlight := none }
  | some CallKind.reconfigureCall =>
      { s with ctrl := resolveReconfigure s.ctrl, inFlight := none }
  | none => s

/-- One system step. -/
def step (s : Sys) : Event → Sys
  | Event.receiveProps next =>
      { s with ctrl := componentWillReceiveProps s.ctrl next }
  | Event.request args options =>
      { s with ctrl := reconfigureOrQueue s.ctrl args options }
  | Event.updateTick => componentDidUpdate s
  | Event.resolve => resolveStep s

/-- The freshly constructed component: `appliedAdapterArgs` seeded from
the `adapterArgs` prop, no pending args, state UNCONFIGURED, nothing in
flight. -/
def mkController (args : AdapterArgs) (shouldDefer : Bool) (flags : Flags) :
    Controller :=
  { adapterState := AdapterState.unconfigured
    appliedAdapterArgs := args
    pendingAdapterArgs := none
    propsAdapterArgs := args
    shouldDeferAdapterConfiguration := shouldDefer
    defaultFlags := flags }

/-- The system right after React mounts the component: construction
followed by `componentDidMount`. -/
def init (args : AdapterArgs) (shouldDefer : Bool) (flags : Flags) : Sys :=
  componentDidMount
    { ctrl := mkController args shouldDefer flags, inFlight := none, log := [] }

/-- Run a sequence of events from a system state. -/
def run (s : Sys) (events : List Event) : Sys :=
  events.foldl step s

/-- The transitions the spec allows for one step: either the state is
unchanged, or it moves UNCONFIGURED→CONFIGURING, CONFIGURED→CONFIGURING,
or CONFIGURING→CONFIGURED. -/
def okStep (a b : AdapterState) : Prop :=
  a = b ∨ (a = AdapterState.unconfigured ∧ b = AdapterState.configuring) ∨
    (a = AdapterState.configured ∧ b = AdapterState.configuring) ∨
    (a = AdapterState.configuring ∧ b = AdapterState.configured)

/-- System invariant: an adapter promise is outstanding only while the
state is CONFIGURING. -/
def InFlightInv (s : Sys) : Prop :=
  s.inFlight.isSome = true → s.ctrl.adapterState = AdapterState.configuring

/- ### Concrete sample data -/

/-- `{a: 0}` -/
def sampleA : ArgObj := ArgObj.cons "a" (ArgVal.leaf 0) ArgObj.nil

/-- `{b: 1}` -/
def sampleB : ArgObj := ArgObj.cons "b" (ArgVal.leaf 1) ArgObj.nil

/-- `{c: 2}` -/
def sampleC : ArgObj := ArgObj.cons "c" (ArgVal.leaf 2) ArgObj.nil

/-- `{d: 3}` -/
def sampleD : ArgObj := ArgObj.cons "d" (ArgVal.leaf 3) ArgObj.nil

/-- A controller in the CONFIGURED state, applied args `{a: 0}`. -/
def sampleConfigured : Controller :=
  { mkController sampleA false [] with adapterState := AdapterState.configured }

/-- A controller in the CONFIGURED state with pending args `{b: 1}`. -/
def sampleConfiguredPending : Controller :=
  { sampleConfigured with pendingAdapterArgs := some sampleB }

/-- A controller in the CONFIGURING state, applied args `{a: 0}`. -/
def sampleConfiguring : Controller :=
  { mkController sampleA false [] with adapterState := AdapterState.configuring }

/-- A system mid-`configure`: CONFIGURING with the configure promise
outstanding. -/
def sampleConfiguringSys : Sys :=
  { ctrl := sampleConfiguring, inFlight := some CallKind.configureCall, log := [] }

/-- A system mid-`configure` that already accumulated pending args. -/
def samplePendingConfiguringSys : Sys :=
  { ctrl := { sampleConfiguring with pendingAdapterArgs := some sampleB }
    inFlight := some CallKind.configureCall
    log := [] }

/-- A quiescent CONFIGURED system. -/
def sampleConfiguredSys : Sys :=
  { ctrl := sampleConfigured, inFlight := none, log := [] }

/-- A CONFIGURED system holding pending args. -/
def sampleConfiguredPendingSys : Sys :=
  { ctrl := sampleConfiguredPending, inFlight := none, log := [] }

/-- The run that loses queued requests: mount with `{a: 0}`, let
`configure` resolve, tick (starting a `reconfigure` cycle), queue `{b: 1}`
and `{c: 2}` while CONFIGURING, let `reconfigure` resolve (which does not
drain pending args), then commit `{d: 3}` in the CONFIGURED state. -/
def lostUpdateRun : Sys :=
  run (init sampleA false [])
    [Event.resolve, Event.updateTick,
     Event.request sampleB ⟨false⟩, Event.request sampleC ⟨false⟩,
     Event.resolve, Event.request sampleD ⟨false⟩]

/- ### Lookup characterization of the deep merge -/

theorem lookupObj_append (k : String) : ∀ (x y : ArgObj),
    lookupObj k (ArgObj.append x y) =
      match lookupObj k x with
      | some v => some v
      | none => lookupObj k y
  | .nil, _ => rfl
  | .cons k' v r, y => by
      by_cases h : k = k' <;>
        simp [ArgObj.append, lookupObj, h, lookupObj_append k r y]

theorem lookupObj_mergeInto (k : String) : ∀ (a b : ArgObj),
    lookupObj k (mergeInto a b) =
      match lookupObj k a with
      | some va =>
          some (match lookupObj k b with
            | some vb => deepMergeVal va vb
            | none => va)
      | none => none
  | .nil, _ => rfl
  | .cons k' v r, b => by
      by_cases h : k = k' <;>
        simp [mergeInto, lookupObj, h, lookupObj_mergeInto k r b]

theorem lookupObj_keysNotIn (k : String) : ∀ (b a : ArgObj),
    lookupObj k (keysNotIn b a) =
      match lookupObj k a with
      | none => lookupObj k b
      | some _ => none
  | .nil, a => by cases h : lookupObj k a <;> simp [keysNotIn, lookupObj, h]
  | .cons k' v r, a => by
      by_cases h : k = k'
      · subst h
        cases ha : lookupObj k a <;>
          simp [keysNotIn, lookupObj, ha, lookupObj_keysNotIn k r a]
      · cases ha : lookupObj k' a <;> cases ha' : lookupObj k a <;>
          simp [keysNotIn, lookupObj, h, ha, ha', lookupObj_keysNotIn k r a]

theorem lookupObj_deepMergeObj (k : String) (a b : ArgObj) :
    lookupObj k (deepMergeObj a b) =
      match lookupObj k a, lookupObj k b with
      | some va, some vb => some (deepMergeVal va vb)
      | some va, none => some va
      | none, ob => ob := by
  unfold deepMergeObj
  rw [lookupObj_append, lookupObj_mergeInto, lookupObj_keysNotIn]
  cases lookupObj k a <;> cases lookupObj k b <;> rfl

theorem deepMergeVal_obj_obj (a b : ArgObj) :
    deepMergeVal (ArgVal.obj a) (ArgVal.obj b) = ArgVal.obj (deepMergeObj a b) :=
  rfl

theorem deepMergeVal_leaf_right (va : ArgVal) (n : Nat) :
    deepMergeVal va (ArgVal.leaf n) = ArgVal.leaf n := by
  cases va <;> rfl

theorem deepMergeVal_leaf_left (n : Nat) (vb : ArgVal) :
    deepMergeVal (ArgVal.leaf n) vb = vb := by
  cases vb <;> rfl

/- ### C1 -/

/-- C1: `mergeAdapterArgs` returns the next argument set `B` exactly,
discarding the previous set `A`, when `options.shouldOverwrite` is true;
otherwise it returns the deep (recursive) merge of `A` and `B`:
at every key, when both sides hold nested objects they are merged
recursively, when `B` holds a value (in particular a leaf) and the sides
are not both objects `B`'s value wins, and keys present on only one side
are kept. -/
theorem mergeAdapterArgs_correct (A B : AdapterArgs)
    (options : AdapterReconfigurationOptions) :
    (options.shouldOverwrite = true →
      mergeAdapterArgs A ⟨B, options⟩ = B) ∧
    (options.shouldOverwrite = false → ∀ k : String,
      lookupObj k (mergeAdapterArgs A ⟨B, options⟩) =
        match lookupObj k A, lookupObj k B with
        | some (ArgVal.obj oa), some (ArgVal.obj ob) =>
            some (ArgVal.obj (deepMergeObj oa ob))
        | _, some vb => some vb
        | some va, none => some va
        | none, none => none) := by
  constructor
  · intro h
    simp [mergeAdapterArgs, h]
  · intro h k
    simp only [mergeAdapterArgs, h, if_neg Bool.false_ne_true,
      lookupObj_deepMergeObj]
    cases ha : lookupObj k A with
    | none => cases hb : lookupObj k B <;> rfl
    | some va =>
        cases hb : lookupObj k B with
        | none => cases va <;> rfl
        | some vb => cases va <;> cases vb <;> rfl

/-- Witness for C1 at concrete inputs `A = {a: 1}`, `B = {a: 2}`. -/
theorem mergeAdapterArgs_correct_witness :
    mergeAdapterArgs (ArgObj.cons "a" (ArgVal.leaf 1) ArgObj.nil)
        ⟨ArgObj.cons "a" (ArgVal.leaf 2) ArgObj.nil, ⟨true⟩⟩
      = ArgObj.cons "a" (ArgVal.leaf 2) ArgObj.nil ∧
    lookupObj "a"
        (mergeAdapterArgs (ArgObj.cons "a" (ArgVal.leaf 1) ArgObj.nil)
          ⟨ArgObj.cons "a" (ArgVal.leaf 2) ArgObj.nil, ⟨false⟩⟩)
      = some (ArgVal.leaf 2) :=
  ⟨(mergeAdapterArgs_correct _ _ _).1 rfl,
   (mergeAdapterArgs_correct _ _ _).2 rfl "a"⟩

/- ### C3 -/

/-- C3: a `reconfigureOrQueue` call made while the adapter state is
CONFIGURED commits synchronously — the applied args become the merge of
the previous applied args with the new args before the call returns — and
the commit itself emits no adapter call (and leaves the outstanding
promise and adapter state untouched). -/
theorem configured_request_commits_synchronously (s : Sys)
    (args : AdapterArgs) (options : AdapterReconfigurationOptions)
    (hs : s.ctrl.adapterState = AdapterState.configured) :
    (step s (Event.request args options)).ctrl.appliedAdapterArgs =
      mergeAdapterArgs s.ctrl.appliedAdapterArgs ⟨args, options⟩ ∧
    (step s (Event.request args options)).log = s.log ∧
    (step s (Event.request args options)).inFlight = s.inFlight ∧
    (step s (Event.request args options)).ctrl.adapterState =
      s.ctrl.adapterState := by
  simp [step, reconfigureOrQueue, hs, applyAdapterArgs]

/-- Witness for C3: committing `{b: 1}` into the CONFIGURED sample
system. -/
theorem configured_request_commits_synchronously_witness :
    (step sampleConfiguredSys (Event.request sampleB ⟨false⟩)).ctrl.appliedAdapterArgs =
      mergeAdapterArgs sampleConfiguredSys.ctrl.appliedAdapterArgs
        ⟨sampleB, ⟨false⟩⟩ ∧
    (step sampleConfiguredSys (Event.request sampleB ⟨false⟩)).log =
      sampleConfiguredSys.log ∧
    (step sampleConfiguredSys (Event.request sampleB ⟨false⟩)).inFlight =
      sampleConfiguredSys.inFlight ∧
    (step sampleConfiguredSys (Event.request sampleB ⟨false⟩)).ctrl.adapterState =
      sampleConfiguredSys.ctrl.adapterState :=
  configured_request_commits_synchronously sampleConfiguredSys sampleB ⟨false⟩ rfl

/- ### C4 -/

/-- C4: a `reconfigureOrQueue` call made while the adapter state is
UNCONFIGURED or CONFIGURING emits no adapter call; its only effect is to
set the pending args to the merge of the previous pending args — seeded
from the applied args when pending is `null` — with the new args. -/
theorem unready_request_only_queues (s : Sys)
    (args : AdapterArgs) (options : AdapterReconfigurationOptions)
    (hs : s.ctrl.adapterState = AdapterState.unconfigured ∨
      s.ctrl.adapterState = AdapterState.configuring) :
    (step s (Event.request args options)).log = s.log ∧
    (step s (Event.request args options)).inFlight = s.inFlight ∧
    (step s (Event.request args options)).ctrl.appliedAdapterArgs =
      s.ctrl.appliedAdapterArgs ∧
    (step s (Event.request args options)).ctrl.adapterState =
      s.ctrl.adapterState ∧
    (step s (Event.request args options)).ctrl.propsAdapterArgs =
      s.ctrl.propsAdapterArgs ∧
    (step s (Event.request args options)).ctrl.pendingAdapterArgs =
      some (mergeAdapterArgs
        (s.ctrl.pendingAdapterArgs.getD s.ctrl.appliedAdapterArgs)
        ⟨args, options⟩) := by
  rcases hs with hs | hs <;>
    simp [step, reconfigureOrQueue, hs, setPendingAdapterArgs]

/-- Witness for C4: queueing `{b: 1}` into the CONFIGURING sample
system. -/
theorem unready_request_only_queues_witness :
    (step sampleConfiguringSys (Event.request sampleB ⟨false⟩)).log =
      sampleConfiguringSys.log ∧
    (step sampleConfiguringSys (Event.request sampleB ⟨false⟩)).inFlight =
      sampleConfiguringSys.inFlight ∧
    (step sampleConfiguringSys (Event.request sampleB ⟨false⟩)).ctrl.appliedAdapterArgs =
      sampleConfiguringSys.ctrl.appliedAdapterArgs ∧
    (step sampleConfiguringSys (Event.request sampleB ⟨false⟩)).ctrl.adapterState =
      sampleConfiguringSys.ctrl.adapterState ∧
    (step sampleConfiguringSys (Event.request sampleB ⟨false⟩)).ctrl.propsAdapterArgs =
      sampleConfiguringSys.ctrl.propsAdapterArgs ∧
    (step sampleConfiguringSys (Event.request sampleB ⟨false⟩)).ctrl.pendingAdapterArgs =
      some (mergeAdapterArgs
        (sampleConfiguringSys.ctrl.pendingAdapterArgs.getD
          sampleConfiguringSys.ctrl.appliedAdapterArgs)
        ⟨sampleB, ⟨false⟩⟩) :=
  unready_request_only_queues sampleConfiguringSys sampleB ⟨false⟩ (Or.inr rfl)

/- ### C10 -/

/-- C10: when pending args are non-null and the adapter state is
CONFIGURED, `reconfigureOrQueue` commits the merge of the previous
*applied* args (not the pending args) with the new args, and clears the
pending args to `null`, discarding their accumulated content. -/
theorem configured_commit_discards_pending (c : Controller)
    (args : AdapterArgs) (options : AdapterReconfigurationOptions)
    (p : AdapterArgs)
    (hs : c.adapterState = AdapterState.configured)
    (hp : c.pendingAdapterArgs = some p) :
    (reconfigureOrQueue c args options).appliedAdapterArgs =
      mergeAdapterArgs c.appliedAdapterArgs ⟨args, options⟩ ∧
    (reconfigureOrQueue c args options).pendingAdapterArgs = none := by
  simp [reconfigureOrQueue, hs, applyAdapterArgs]

/-- Witness for C10: committing `{c: 2}` while `{b: 1}` is pending in the
CONFIGURED sample controller. -/
theorem configured_commit_discards_pending_witness :
    (reconfigureOrQueue sampleConfiguredPending sampleC ⟨false⟩).appliedAdapterArgs =
      mergeAdapterArgs sampleConfiguredPending.appliedAdapterArgs
        ⟨sampleC, ⟨false⟩⟩ ∧
    (reconfigureOrQueue sampleConfiguredPending sampleC ⟨false⟩).pendingAdapterArgs =
      none :=
  configured_commit_discards_pending sampleConfiguredPending sampleC ⟨false⟩
    sampleB rfl rfl

/- ### C5 -/

/-- C5: on startup without deferral, `componentDidMount` moves the
UNCONFIGURED controller to CONFIGURING and issues `adapter.configure` with
the pending args if non-null else the applied args; and whenever the
outstanding configure promise resolves, the state becomes CONFIGURED and
any then-pending args are committed into the applied args and cleared. -/
theorem startup_configure_path (c : Controller) (t : Sys)
    (hdefer : c.shouldDeferAdapterConfiguration = false)
    (hstate : c.adapterState = AdapterState.unconfigured)
    (ht : t.inFlight = some CallKind.configureCall) :
    (componentDidMount ⟨c, none, []⟩).ctrl.adapterState =
      AdapterState.configuring ∧
    (componentDidMount ⟨c, none, []⟩).log =
      handleDefaultFlags c.defaultFlags ++
        [Effect.configure (c.pendingAdapterArgs.getD c.appliedAdapterArgs)] ∧
    (componentDidMount ⟨c, none, []⟩).inFlight =
      some CallKind.configureCall ∧
    (resolveStep t).ctrl.adapterState = AdapterState.configured ∧
    (∀ p, t.ctrl.pendingAdapterArgs = some p →
      (resolveStep t).ctrl.appliedAdapterArgs = p ∧
      (resolveStep t).ctrl.pendingAdapterArgs = none) ∧
    (t.ctrl.pendingAdapterArgs = none →
      (resolveStep t).ctrl.appliedAdapterArgs = t.ctrl.appliedAdapterArgs ∧
      (resolveStep t).ctrl.pendingAdapterArgs = none) := by
  refine ⟨?_, ?_, ?_, ?_, ?_, ?_⟩
  · simp [componentDidMount, hdefer, setAdapterState]
  · simp [componentDidMount, hdefer, setAdapterState,
      getAdapterArgsForConfiguration]
  · simp [componentDidMount, hdefer]
  · simp [resolveStep, ht, resolveConfigure, setAdapterState]
    cases hp : t.ctrl.pendingAdapterArgs <;> simp [applyAdapterArgs]
  · intro p hp
    simp [resolveStep, ht, resolveConfigure, setAdapterState, hp,
      applyAdapterArgs]
  · intro hp
    simp [resolveStep, ht, resolveConfigure, setAdapterState, hp]

/-- Witness for C5: mounting the fresh controller, and resolving the
configure promise of the mid-configure sample system whose pending args
are `{b: 1}`. -/
theorem startup_configure_path_witness :
    (componentDidMount ⟨mkController sampleA false [], none, []⟩).ctrl.adapterState =
      AdapterState.configuring ∧
    (componentDidMount ⟨mkController sampleA false [], none, []⟩).log =
      handleDefaultFlags (mkController sampleA false []).defaultFlags ++
        [Effect.configure
          ((mkController sampleA false []).pendingAdapterArgs.getD
            (mkController sampleA false []).appliedAdapterArgs)] ∧
    (componentDidMount ⟨mkController sampleA false [], none, []⟩).inFlight =
      some CallKind.configureCall ∧
    (resolveStep samplePendingConfiguringSys).ctrl.adapterState =
      AdapterState.configured ∧
    ((resolveStep samplePendingConfiguringSys).ctrl.appliedAdapterArgs = sampleB ∧
      (resolveStep samplePendingConfiguringSys).ctrl.pendingAdapterArgs = none) := by
  have h := startup_configure_path (mkController sampleA false [])
    samplePendingConfiguringSys rfl rfl rfl
  exact ⟨h.1, h.2.1, h.2.2.1, h.2.2.2.1, h.2.2.2.2.1 sampleB rfl⟩

/- ### C7 -/

/-- C7: an update tick in state CONFIGURED (not deferred) moves the
controller to CONFIGURING and issues `adapter.reconfigure` with the
pending args if non-null else the applied args; the resolution of the
reconfigure promise moves the state back to CONFIGURED and leaves both the
pending and the applied args unchanged — unlike the configure path it does
not drain the pending args. -/
theorem reconfigure_tick_path (s t : Sys)
    (hs : s.ctrl.adapterState = AdapterState.configured)
    (hdefer : s.ctrl.shouldDeferAdapterConfiguration = false)
    (ht : t.inFlight = some CallKind.reconfigureCall) :
    (componentDidUpdate s).ctrl.adapterState = AdapterState.configuring ∧
    (componentDidUpdate s).inFlight = some CallKind.reconfigureCall ∧
    (componentDidUpdate s).log = s.log ++
      [Effect.reconfigure
        (s.ctrl.pendingAdapterArgs.getD s.ctrl.appliedAdapterArgs)] ∧
    (componentDidUpdate s).ctrl.pendingAdapterArgs =
      s.ctrl.pendingAdapterArgs ∧
    (componentDidUpdate s).ctrl.appliedAdapterArgs =
      s.ctrl.appliedAdapterArgs ∧
    (resolveStep t).ctrl.adapterState = AdapterState.configured ∧
    (resolveStep t).ctrl.pendingAdapterArgs = t.ctrl.pendingAdapterArgs ∧
    (resolveStep t).ctrl.appliedAdapterArgs = t.ctrl.appliedAdapterArgs := by
  refine ⟨?_, ?_, ?_, ?_, ?_, ?_, ?_, ?_⟩ <;>
    simp [componentDidUpdate, hs, hdefer, setAdapterState,
      getAdapterArgsForConfiguration, resolveStep, ht, resolveReconfigure]

/-- Witness for C7: a tick on the CONFIGURED sample system holding pending
args `{b: 1}`, and the resolution of a reconfigure promise over the same
controller. -/
theorem reconfigure_tick_path_witness :
    (componentDidUpdate sampleConfiguredPendingSys).ctrl.adapterState =
      AdapterState.configuring ∧
    (componentDidUpdate sampleConfiguredPendingSys).inFlight =
      some CallKind.reconfigureCall ∧
    (componentDidUpdate sampleConfiguredPendingSys).log =
      sampleConfiguredPendingSys.log ++
        [Effect.reconfigure
          (sampleConfiguredPendingSys.ctrl.pendingAdapterArgs.getD
            sampleConfiguredPendingSys.ctrl.appliedAdapterArgs)] ∧
    (componentDidUpdate sampleConfiguredPendingSys).ctrl.pendingAdapterArgs =
      sampleConfiguredPendingSys.ctrl.pendingAdapterArgs ∧
    (componentDidUpdate sampleConfiguredPendingSys).ctrl.appliedAdapterArgs =
      sampleConfiguredPendingSys.ctrl.appliedAdapterArgs ∧
    (resolveStep ⟨sampleConfiguredPending, some CallKind.reconfigureCall, []⟩).ctrl.adapterState =
      AdapterState.configured ∧
    (resolveStep ⟨sampleConfiguredPending, some CallKind.reconfigureCall, []⟩).ctrl.pendingAdapterArgs =
      sampleConfiguredPending.pendingAdapterArgs ∧
    (resolveStep ⟨sampleConfiguredPending, some CallKind.reconfigureCall, []⟩).ctrl.appliedAdapterArgs =
      sampleConfiguredPending.appliedAdapterArgs :=
  reconfigure_tick_path sampleConfiguredPendingSys
    ⟨sampleConfiguredPending, some CallKind.reconfigureCall, []⟩ rfl rfl rfl

/- ### C9 -/

/-- C9: at startup, iff the supplied default flag set is non-empty, the
controller emits exactly one `onFlagsStateChange` call carrying that flag
set, placed before the `configure` call (when one is issued at all); an
empty default flag set produces no `onFlagsStateChange` call. -/
theorem default_flags_bootstrap (c : Controller) :
    (c.defaultFlags ≠ [] →
      (componentDidMount ⟨c, none, []⟩).log =
        Effect.onFlagsStateChange c.defaultFlags ::
          (if c.shouldDeferAdapterConfiguration = true then []
           else [Effect.configure
             (c.pendingAdapterArgs.getD c.appliedAdapterArgs)])) ∧
    (c.defaultFlags = [] → ∀ f,
      Effect.onFlagsStateChange f ∉ (componentDidMount ⟨c, none, []⟩).log) := by
  constructor
  · intro h
    have hlen : 0 < c.defaultFlags.length := List.length_pos.mpr h
    cases hd : c.shouldDeferAdapterConfiguration <;>
      simp [componentDidMount, handleDefaultFlags, hlen, hd,
        setAdapterState, getAdapterArgsForConfiguration]
  · intro h f
    cases hd : c.shouldDeferAdapterConfiguration <;>
      simp [componentDidMount, handleDefaultFlags, h, hd]

/-- Witness for C9: mounting with `defaultFlags = {flagX: true}` pushes
exactly that flag set first, and mounting with empty default flags pushes
nothing. -/
theorem default_flags_bootstrap_witness :
    (componentDidMount
        ⟨mkController sampleA false [("flagX", true)], none, []⟩).log =
      Effect.onFlagsStateChange [("flagX", true)] ::
        [Effect.configure sampleA] ∧
    Effect.onFlagsStateChange [("flagX", true)] ∉
      (componentDidMount ⟨mkController sampleA false [], none, []⟩).log :=
  ⟨(default_flags_bootstrap (mkController sampleA false [("flagX", true)])).1
      (by decide),
   (default_flags_bootstrap (mkController sampleA false [])).2 rfl
      [("flagX", true)]⟩

/- ### C8 -/

/-- C8: `componentWillReceiveProps` routes an argument set that differs
from the previous one through `reconfigureOrQueue`, with `shouldOverwrite`
true exactly when the adapter state is already CONFIGURED; an unchanged
argument set leaves the controller untouched. -/
theorem props_change_routes_through_request (c : Controller)
    (next : AdapterArgs) :
    (next ≠ c.propsAdapterArgs →
      componentWillReceiveProps c next =
        { reconfigureOrQueue c next
            ⟨decide (c.adapterState = AdapterState.configured)⟩ with
          propsAdapterArgs := next } ∧
      ((decide (c.adapterState = AdapterState.configured) = true) ↔
        c.adapterState = AdapterState.configured)) ∧
    (next = c.propsAdapterArgs →
      componentWillReceiveProps c next = c) := by
  constructor
  · intro h
    exact ⟨by simp [componentWillReceiveProps, h], by simp⟩
  · intro h
    subst h
    simp [componentWillReceiveProps]

/-- Witness for C8: new props `{b: 1}` against a CONFIGURED controller
whose previous props were `{a: 0}` are routed with `shouldOverwrite`
true; re-receiving `{a: 0}` changes nothing. -/
theorem props_change_routes_through_request_witness :
    (componentWillReceiveProps sampleConfigured sampleB =
        { reconfigureOrQueue sampleConfigured sampleB
            ⟨decide (sampleConfigured.adapterState = AdapterState.configured)⟩ with
          propsAdapterArgs := sampleB } ∧
      ((decide (sampleConfigured.adapterState = AdapterState.configured) = true) ↔
        sampleConfigured.adapterState = AdapterState.configured)) ∧
    componentWillReceiveProps sampleConfigured sampleA = sampleConfigured :=
  ⟨(props_change_routes_through_request sampleConfigured sampleB).1 (by decide),
   (props_change_routes_through_request sampleConfigured sampleA).2 rfl⟩

/- ### State-machine lemmas -/

theorem reconfigureOrQueue_adapterState (c : Controller)
    (args : AdapterArgs) (options : AdapterReconfigurationOptions) :
    (reconfigureOrQueue c args options).adapterState = c.adapterState := by
  unfold reconfigureOrQueue
  split <;> rfl

theorem componentWillReceiveProps_adapterState (c : Controller)
    (next : AdapterArgs) :
    (componentWillReceiveProps c next).adapterState = c.adapterState := by
  by_cases h : next ≠ c.propsAdapterArgs <;>
    simp [componentWillReceiveProps, h, reconfigureOrQueue_adapterState]

theorem resolveConfigure_adapterState (c : Controller) :
    (resolveConfigure c).adapterState = AdapterState.configured := by
  cases h : c.pendingAdapterArgs <;>
    simp [resolveConfigure, setAdapterState, applyAdapterArgs, h]

theorem inFlightInv_step (s : Sys) (e : Event) (hinv : InFlightInv s) :
    InFlightInv (step s e) := by
  cases e with
  | receiveProps next =>
      intro h
      show (componentWillReceiveProps s.ctrl next).adapterState = _
      rw [componentWillReceiveProps_adapterState]
      exact hinv h
  | request args options =>
      intro h
      show (reconfigureOrQueue s.ctrl args options).adapterState = _
      rw [reconfigureOrQueue_adapterState]
      exact hinv h
  | updateTick =>
      show InFlightInv (componentDidUpdate s)
      unfold componentDidUpdate
      split
      · intro _; rfl
      · split
        · intro _; rfl
        · exact hinv
  | resolve =>
      show InFlightInv (resolveStep s)
      unfold resolveStep
      split
      · intro h; simp at h
      · intro h; simp at h
      · exact hinv

theorem okStep_of_step (s : Sys) (e : Event) (hinv : InFlightInv s) :
    okStep s.ctrl.adapterState (step s e).ctrl.adapterState := by
  cases e with
  | receiveProps next =>
      exact Or.inl (componentWillReceiveProps_adapterState s.ctrl next).symm
  | request args options =>
      exact Or.inl (reconfigureOrQueue_adapterState s.ctrl args options).symm
  | updateTick =>
      show okStep _ (componentDidUpdate s).ctrl.adapterState
      unfold componentDidUpdate
      split
      · rename_i h
        cases hst : s.ctrl.adapterState with
        | unconfigured => exact Or.inr (Or.inl ⟨rfl, rfl⟩)
        | configuring => exact absurd hst h.2.2
        | configured => exact absurd hst h.2.1
      · split
        · rename_i h
          exact Or.inr (Or.inr (Or.inl ⟨h.1, rfl⟩))
        · exact Or.inl rfl
  | resolve =>
      show okStep _ (resolveStep s).ctrl.adapterState
      cases hf : s.inFlight with
      | none => unfold resolveStep; rw [hf]; exact Or.inl rfl
      | some k =>
          have hst : s.ctrl.adapterState = AdapterState.configuring :=
            hinv (by simp [hf])
          cases k with
          | configureCall =>
              refine Or.inr (Or.inr (Or.inr ⟨hst, ?_⟩))
              unfold resolveStep
              rw [hf]
              exact resolveConfigure_adapterState s.ctrl
          | reconfigureCall =>
              refine Or.inr (Or.inr (Or.inr ⟨hst, ?_⟩))
              unfold resolveStep
              rw [hf]
              rfl

theorem inFlightInv_init (args : AdapterArgs) (shouldDefer : Bool)
    (flags : Flags) : InFlightInv (init args shouldDefer flags) := by
  unfold init componentDidMount mkController
  cases shouldDefer <;> simp [InFlightInv, setAdapterState]

theorem inFlightInv_run (s : Sys) (events : List Event)
    (hinv : InFlightInv s) : InFlightInv (run s events) := by
  induction events generalizing s with
  | nil => exact hinv
  | cons e rest ih => exact ih (step s e) (inFlightInv_step s e hinv)

/- ### C6 -/

/-- C6: along every run from construction — mount, then any sequence of
props changes, reconfiguration requests, update ticks and promise
resolutions — every step of the adapter state is either a stutter or one
of UNCONFIGURED→CONFIGURING, CONFIGURED→CONFIGURING,
CONFIGURING→CONFIGURED: the state never leaves CONFIGURING for
UNCONFIGURED, never reaches CONFIGURED except from CONFIGURING, and never
changes into CONFIGURING except from UNCONFIGURED or CONFIGURED. -/
theorem adapter_state_machine_transitions (args : AdapterArgs)
    (shouldDefer : Bool) (flags : Flags) (events : List Event) (e : Event) :
    okStep AdapterState.unconfigured
      (init args shouldDefer flags).ctrl.adapterState ∧
    okStep (run (init args shouldDefer flags) events).ctrl.adapterState
      (step (run (init args shouldDefer flags) events) e).ctrl.adapterState := by
  constructor
  · unfold init componentDidMount mkController
    cases shouldDefer <;> simp [okStep, setAdapterState]
  · exact okStep_of_step _ e
      (inFlightInv_run _ events (inFlightInv_init args shouldDefer flags))

/- ### C2 -/

/-- Counterexample to C2: with applied args `{a: 0}`, requests `{b: 1}`
and `{c: 2}` arrive back-to-back while CONFIGURING (during a reconfigure
cycle) and are folded into the pending args; yet after the reconfigure
promise resolves (which does not drain pending) and a request `{d: 3}`
commits in the CONFIGURED state, neither key survives anywhere: the final
applied args lack both `b` and `c` and the pending args are `null`. -/
theorem queued_requests_lost_counterexample :
    (run (init sampleA false []) [Event.resolve, Event.updateTick]).ctrl.adapterState
      = AdapterState.configuring ∧
    lookupObj "b"
        ((run (init sampleA false [])
            [Event.resolve, Event.updateTick,
             Event.request sampleB ⟨false⟩,
             Event.request sampleC ⟨false⟩]).ctrl.pendingAdapterArgs.getD
          ArgObj.nil) = some (ArgVal.leaf 1) ∧
    lookupObj "c"
        ((run (init sampleA false [])
            [Event.resolve, Event.updateTick,
             Event.request sampleB ⟨false⟩,
             Event.request sampleC ⟨false⟩]).ctrl.pendingAdapterArgs.getD
          ArgObj.nil) = some (ArgVal.leaf 2) ∧
    lostUpdateRun.ctrl.adapterState = AdapterState.configured ∧
    lookupObj "b" lostUpdateRun.ctrl.appliedAdapterArgs = none ∧
    lookupObj "c" lostUpdateRun.ctrl.appliedAdapterArgs = none ∧
    lostUpdateRun.ctrl.pendingAdapterArgs = none := by
  decide

theorem lookupObj_mergeAdapterArgs_present (k : String)
    (prev b : AdapterArgs) (options : AdapterReconfigurationOptions)
    (hb : lookupObj k b ≠ none) :
    lookupObj k (mergeAdapterArgs prev ⟨b, options⟩) ≠ none := by
  unfold mergeAdapterArgs
  split
  · exact hb
  · rw [lookupObj_deepMergeObj]
    cases ha : lookupObj k prev <;> cases hbb : lookupObj k b <;> simp_all

theorem lookupObj_mergeAdapterArgs_absent (k : String)
    (prev b : AdapterArgs) (options : AdapterReconfigurationOptions)
    (ho : options.shouldOverwrite = false) (hb : lookupObj k b = none) :
    lookupObj k (mergeAdapterArgs prev ⟨b, options⟩) = lookupObj k prev := by
  unfold mergeAdapterArgs
  rw [if_neg (by simp [ho]), lookupObj_deepMergeObj, hb]
  cases ha : lookupObj k prev <;> simp

/-- C2, amended: requests arriving while CONFIGURING are folded into the
pending args in arrival order via successive merges, and two back-to-back
requests carrying distinct top-level keys (the second merging rather than
overwriting) both appear in the accumulated pending state; when the
in-flight call is a *configure*, its resolution commits that accumulated
state into the applied args, so both keys survive there.  (As the
counterexample shows, the survival does not extend to every subsequent
evolution: a reconfigure cycle — whose completion does not drain the
pending args — followed by a commit in the CONFIGURED state discards the
accumulated pending content.) -/
theorem configuring_requests_fold_into_pending (s : Sys)
    (a1 a2 : AdapterArgs) (o1 o2 : AdapterReconfigurationOptions)
    (k1 k2 : String)
    (hs : s.ctrl.adapterState = AdapterState.configuring)
    (h2 : o2.shouldOverwrite = false)
    (hk1 : lookupObj k1 a1 ≠ none)
    (hk2 : lookupObj k2 a2 ≠ none)
    (hk12 : lookupObj k1 a2 = none) :
    (step (step s (Event.request a1 o1)) (Event.request a2 o2)).ctrl.pendingAdapterArgs
      = some (mergeAdapterArgs
          (mergeAdapterArgs
            (s.ctrl.pendingAdapterArgs.getD s.ctrl.appliedAdapterArgs)
            ⟨a1, o1⟩)
          ⟨a2, o2⟩) ∧
    lookupObj k1
        (mergeAdapterArgs
          (mergeAdapterArgs
            (s.ctrl.pendingAdapterArgs.getD s.ctrl.appliedAdapterArgs)
            ⟨a1, o1⟩)
          ⟨a2, o2⟩) ≠ none ∧
    lookupObj k2
        (mergeAdapterArgs
          (mergeAdapterArgs
            (s.ctrl.pendingAdapterArgs.getD s.ctrl.appliedAdapterArgs)
            ⟨a1, o1⟩)
          ⟨a2, o2⟩) ≠ none ∧
    (s.inFlight = some CallKind.configureCall →
      (step (step (step s (Event.request a1 o1)) (Event.request a2 o2))
          Event.resolve).ctrl.appliedAdapterArgs
        = mergeAdapterArgs
            (mergeAdapterArgs
              (s.ctrl.pendingAdapterArgs.getD s.ctrl.appliedAdapterArgs)
              ⟨a1, o1⟩)
            ⟨a2, o2⟩) := by
  refine ⟨?_, ?_, ?_, ?_⟩
  · simp [step, reconfigureOrQueue, hs, setPendingAdapterArgs]
  · rw [lookupObj_mergeAdapterArgs_absent k1 _ a2 o2 h2 hk12]
    exact lookupObj_mergeAdapterArgs_present k1 _ a1 o1 hk1
  · exact lookupObj_mergeAdapterArgs_present k2 _ a2 o2 hk2
  · intro hf
    simp [step, reconfigureOrQueue, hs, setPendingAdapterArgs, resolveStep,
      hf, resolveConfigure, setAdapterState, applyAdapterArgs]

/-- Witness for the amended C2: requests `{b: 1}` then `{c: 2}` on the
mid-configure sample system. -/
theorem configuring_requests_fold_into_pending_witness :
    (step (step sampleConfiguringSys (Event.request sampleB ⟨false⟩))
        (Event.request sampleC ⟨false⟩)).ctrl.pendingAdapterArgs
      = some (mergeAdapterArgs
          (mergeAdapterArgs
            (sampleConfiguringSys.ctrl.pendingAdapterArgs.getD
              sampleConfiguringSys.ctrl.appliedAdapterArgs)
            ⟨sampleB, ⟨false⟩⟩)
          ⟨sampleC, ⟨false⟩⟩) ∧
    lookupObj "b"
        (mergeAdapterArgs
          (mergeAdapterArgs
            (sampleConfiguringSys.ctrl.pendingAdapterArgs.getD
              sampleConfiguringSys.ctrl.appliedAdapterArgs)
            ⟨sampleB, ⟨false⟩⟩)
          ⟨sampleC, ⟨false⟩⟩) ≠ none ∧
    lookupObj "c"
        (mergeAdapterArgs
          (mergeAdapterArgs
            (sampleConfiguringSys.ctrl.pendingAdapterArgs.getD
              sampleConfiguringSys.ctrl.appliedAdapterArgs)
            ⟨sampleB, ⟨false⟩⟩)
          ⟨sampleC, ⟨false⟩⟩) ≠ none ∧
    (sampleConfiguringSys.inFlight = some CallKind.configureCall →
      (step (step (step sampleConfiguringSys (Event.request sampleB ⟨false⟩))
          (Event.request sampleC ⟨false⟩)) Event.resolve).ctrl.appliedAdapterArgs
        = mergeAdapterArgs
            (mergeAdapterArgs
              (sampleConfiguringSys.ctrl.pendingAdapterArgs.getD
                sampleConfiguringSys.ctrl.appliedAdapterArgs)
              ⟨sampleB, ⟨false⟩⟩)
            ⟨sampleC, ⟨false⟩⟩) :=
  configuring_requests_fold_into_pending sampleConfiguringSys sampleB sampleC
    ⟨false⟩ ⟨false⟩ "b" "c" rfl rfl (by decide) (by decide) (by decide)

end Flopflip
